import Mathlib

/-!
Verification development for the iLO power-management tool
(`src/hpe/ilo_power_1.0.4.py`).  The Python code is shallowly embedded:
JSON documents become an inductive `Json`, a Redfish client bound to one
target becomes a `Device` (a map from endpoint paths to transport
outcomes), fallible Python code becomes `Except PyErr`-valued functions,
and the module-level helpers (`_safe_get_json`, `get_power_watts`,
`get_cpu_utilization`, `get_power_status`, `power_on_system`,
`power_off_system`, `RedfishSession.__enter__/__exit__`, the
`monitor_power` loop and its aggregation, `save_power_data_to_csv`)
are translated function by function.
-/

set_option autoImplicit false

namespace IloPower

/-- Python exception classes that can escape the embedded fragments.
`connectionError` and `authenticationError` are the script's own
exception classes (source lines 87-91); the rest are built-in Python
exceptions raised by the operations noted at their use sites. -/
inductive PyErr where
  | connectionError
  | authenticationError
  | jsonDecodeError
  | nameError
  | attributeError
  | typeError
  deriving DecidableEq, Repr

/-- A parsed JSON document, as produced by Python's `json.loads`:
objects (dicts with unique string keys), arrays, strings, numbers,
booleans and null.  Numbers are modelled as rationals. -/
inductive Json where
  | null
  | bool (b : Bool)
  | num (q : Rat)
  | str (s : String)
  | arr (elems : List Json)
  | obj (fields : List (String × Json))

/-- Python truthiness of a JSON value (`if data:` in the source):
`None`, `False`, `0`, `""`, `[]` and `{}` are falsy; everything else
is truthy.  No recursion is needed because container truthiness only
checks emptiness. -/
def Json.truthy : Json → Bool
  | .null => false
  | .bool b => b
  | .num q => q != 0
  | .str s => s ≠ ""
  | .arr elems => !elems.isEmpty
  | .obj fields => !fields.isEmpty

/-- Dict field access, `data["k"]` / `"k" in data` on a parsed JSON
object.  Parsed objects have unique keys, so first-match lookup is
exact. -/
def lookupField (fields : List (String × Json)) (key : String) : Option Json :=
  List.lookup key fields

/-- Python `value is not None` filter used after `d.get(key)`:
a JSON `null` behaves exactly like a missing value in the source's
`if x is not None` checks. -/
def nonNull : Json → Option Json
  | .null => none
  | v => some v

/-- `isinstance(util, (int, float))` followed by use as a number.
Python `bool` is a subclass of `int`, so JSON booleans pass the check
and count as 1/0. -/
def Json.asPyNum : Json → Option Rat
  | .num q => some q
  | .bool b => some (if b then 1 else 0)
  | _ => none

/-- The body of one HTTP response as seen by `_safe_get_json`:
empty text, text that `json.loads` rejects, or text parsing to `j`. -/
inductive Body where
  | empty
  | invalid
  | parsed (j : Json)

/-- A Redfish REST response object (`response.status`, `response.text`). -/
structure HttpResponse where
  status : Nat
  body : Body

/-- Outcome of one `client.get(path)` call: the underlying transport
either raises (connection error, timeout, ...) or yields a response. -/
inductive Transport where
  | raised
  | resp (r : HttpResponse)

/-- Outcome of one `client.post(path, body)` call. -/
inductive PostOutcome where
  | raised
  | status (n : Nat)

/-- One target's authenticated Redfish client, abstracted as the
responses its endpoints give.  `get` is keyed by endpoint path; `post`
by path and the `ResetType` string in the request body. -/
structure Device where
  get : String → Transport
  post : String → String → PostOutcome

/-! Redfish API path constants (source lines 71-84). -/

def REDFISH_SYSTEM_PATH : String := "/redfish/v1/Systems/1"
def REDFISH_CHASSIS_PATH : String := "/redfish/v1/Chassis/1"
def REDFISH_POWER_PATH : String := REDFISH_CHASSIS_PATH ++ "/Power"
def REDFISH_POWER_SUBSYSTEM_METRICS_PATH : String :=
  REDFISH_CHASSIS_PATH ++ "/PowerSubsystem/PowerMetrics"
def REDFISH_SYSTEM_METRICS_PATH : String := REDFISH_SYSTEM_PATH ++ "/Metrics"
def REDFISH_PROCESSOR_SUMMARY_METRICS_PATH : String :=
  REDFISH_SYSTEM_PATH ++ "/ProcessorSummary/ProcessorMetrics"
def REDFISH_PROCESSOR_COLLECTION_PATH : String := REDFISH_SYSTEM_PATH ++ "/Processors"
def REDFISH_HPE_PROCESSOR_COLLECTION_PATH : String :=
  REDFISH_SYSTEM_PATH ++ "/Oem/Hpe/Processors"
def REDFISH_RESET_ACTION_PATH : String :=
  REDFISH_SYSTEM_PATH ++ "/Actions/ComputerSystem.Reset"

/-- `_safe_get_json` (source lines 94-119): `None` response → `None`;
status ≠ 200 → `None`; empty text → `None`; unparseable text → `None`
(the `except` clauses); otherwise `data if data else {}`, i.e. a falsy
parsed value is replaced by the empty dict. -/
def safe_get_json : Option HttpResponse → Option Json
  | none => none
  | some r =>
    if r.status = 200 then
      match r.body with
      | .empty => none
      | .invalid => none
      | .parsed j => some (if j.truthy then j else .obj [])
    else none

/-- `json.loads(response.text)` with the exception made explicit:
it raises `JSONDecodeError` on text that does not parse. -/
def json_loads : Body → Except PyErr Json
  | .empty => .error .jsonDecodeError
  | .invalid => .error .jsonDecodeError
  | .parsed j => .ok j

/-- `_safe_get_json` with its internal exception flow kept visible:
the `try`/`except` around `json.loads` converts the parse exception to
the value `None`, so the function as a whole never raises. -/
def safe_get_json_exc : Option HttpResponse → Except PyErr (Option Json)
  | none => .ok none
  | some r =>
    if r.status = 200 then
      match r.body with
      | .empty => .ok none
      | b =>
        match json_loads b with
        | .ok data => .ok (some (if data.truthy then data else .obj []))
        | .error _ => .ok none
    else .ok none

/-!
`get_power_watts` (source lines 663-750).  Three probes are tried in
fixed order, each wrapped in its own `try`/`except` so that a transport
error or a `TypeError`/`AttributeError` inside the extraction only
fails that probe.  Extraction rules operate on dict-shaped responses;
for every non-dict parsed value each rule ends with `watts` still
`None` — either the membership/attribute access raises (swallowed by
the probe's `except`) or the guarding `if`-condition is false — so the
embedding maps all non-`obj` shapes to `none`.
-/

/-- Probe 1 extraction inner loop (lines 677-683): scan
`data["PowerControl"]` for the first entry whose
`PowerConsumedWatts` is present and non-null.  A non-dict entry makes
the membership test raise `TypeError`, aborting the whole probe
(swallowed by the probe's `except`), hence `none`. -/
def firstPowerControl : List Json → Option Json
  | [] => none
  | .obj pc :: rest =>
    match lookupField pc "PowerConsumedWatts" with
    | some .null => firstPowerControl rest
    | some v => some v
    | none => firstPowerControl rest
  | _ :: _ => none

/-- Probe 1 (lines 669-688): `GET /redfish/v1/Chassis/1/Power`, value
from the `PowerControl` list. -/
def powerProbe1 (d : Device) : Option Json :=
  match d.get REDFISH_POWER_PATH with
  | .raised => none
  | .resp r =>
    match safe_get_json (some r) with
    | some (.obj fields) =>
      if (Json.obj fields).truthy then
        match lookupField fields "PowerControl" with
        | some (.arr pcs) => if pcs.length > 0 then firstPowerControl pcs else none
        | _ => none
      else none
    | _ => none

/-- Probe 2 `elif` chain (lines 701-704): `PowerConsumedWatts` directly
on the body, then `PowerWatts`.  A key present with value null stops
the chain with `watts = None`. -/
def powerProbe2Elif (fields : List (String × Json)) : Option Json :=
  match lookupField fields "PowerConsumedWatts" with
  | some v => nonNull v
  | none =>
    match lookupField fields "PowerWatts" with
    | some v => nonNull v
    | none => none

/-- Probe 2 (lines 690-713): `GET .../PowerSubsystem/PowerMetrics`,
nested `PowerMetrics.PowerConsumedWatts` first, then the direct keys. -/
def powerProbe2 (d : Device) : Option Json :=
  match d.get REDFISH_POWER_SUBSYSTEM_METRICS_PATH with
  | .raised => none
  | .resp r =>
    match safe_get_json (some r) with
    | some (.obj fields) =>
      if (Json.obj fields).truthy then
        match lookupField fields "PowerMetrics" with
        | some (.obj pm) =>
          match lookupField pm "PowerConsumedWatts" with
          | some v => nonNull v
          | none => powerProbe2Elif fields
        | some _ => powerProbe2Elif fields
        | none => powerProbe2Elif fields
      else none
    | _ => none

/-- `oem.get("Hpe", oem.get("Hp", {}))` (lines 724, 766, 864). -/
def oemHpe (oem : List (String × Json)) : Json :=
  match lookupField oem "Hpe" with
  | some v => v
  | none =>
    match lookupField oem "Hp" with
    | some v => v
    | none => .obj []

/-- Probe 3 (lines 715-734): `GET /redfish/v1/Systems/1`, value from
`Oem.Hpe.PowerConsumedWatts` (or `Oem.Hp`).  A non-dict `Oem` value
makes `.get` raise `AttributeError`; a non-dict Hpe value makes the
membership test raise `TypeError`; both are swallowed by the probe's
`except`, failing the probe. -/
def powerProbe3 (d : Device) : Option Json :=
  match d.get REDFISH_SYSTEM_PATH with
  | .raised => none
  | .resp r =>
    match safe_get_json (some r) with
    | some (.obj fields) =>
      if (Json.obj fields).truthy then
        match lookupField fields "Oem" with
        | some (.obj oem) =>
          match oemHpe oem with
          | .obj hpe =>
            match lookupField hpe "PowerConsumedWatts" with
            | some v => nonNull v
            | none => none
          | _ => none
        | some _ => none
        | none => none
      else none
    | _ => none

/-- `get_power_watts` (lines 663-750): probe 1, and only if `watts` is
still `None` probe 2, then probe 3; `None` after all three. -/
def get_power_watts (d : Device) : Option Json :=
  match powerProbe1 d with
  | some w => some w
  | none =>
    match powerProbe2 d with
    | some w => some w
    | none =>
      match powerProbe3 d with
      | some w => some w
      | none => none

/-- First structurally valid probe result, in list order — the spec's
formulation of the discovery algorithm ("probe in priority order, stop
at first success"). -/
def firstValid : List (Option Json) → Option Json
  | [] => none
  | some v :: _ => some v
  | none :: rest => firstValid rest

/-- The declared candidate probe list for the power-draw metric. -/
def powerProbes (d : Device) : List (Option Json) :=
  [powerProbe1 d, powerProbe2 d, powerProbe3 d]

/-!
`get_cpu_utilization` (source lines 752-950).  Five probes in fixed
order, each in its own `try`/`except`; the same non-dict conventions
as for `get_power_watts` apply.
-/

/-- CPU probe 1 (lines 757-796): `GET /redfish/v1/Systems/1`, value
from `Oem.Hpe.ProcessorUtilization`, else from
`Oem.Hpe.SystemUsage.CPUUtil`.  The `elif` is only reached when the
`ProcessorUtilization` key is absent (a null value stops the chain). -/
def cpuProbe1 (d : Device) : Option Json :=
  match d.get REDFISH_SYSTEM_PATH with
  | .raised => none
  | .resp r =>
    match safe_get_json (some r) with
    | some (.obj fields) =>
      if (Json.obj fields).truthy then
        match lookupField fields "Oem" with
        | some (.obj oem) =>
          match oemHpe oem with
          | .obj hpe =>
            if (Json.obj hpe).truthy then
              match lookupField hpe "ProcessorUtilization" with
              | some v => nonNull v
              | none =>
                match lookupField hpe "SystemUsage" with
                | some (.obj su) =>
                  match lookupField su "CPUUtil" with
                  | some v => nonNull v
                  | none => none
                | some _ => none
                | none => none
            else none
          | _ => none
        | some _ => none
        | none => none
      else none
    | _ => none

/-- CPU probe 2 (lines 798-819): `GET /redfish/v1/Systems/1/Metrics`,
nested `ProcessorSummary.CPUUtilization` first, else the direct
`CPUUtilization` key. -/
def cpuProbe2 (d : Device) : Option Json :=
  match d.get REDFISH_SYSTEM_METRICS_PATH with
  | .raised => none
  | .resp r =>
    match safe_get_json (some r) with
    | some (.obj fields) =>
      if (Json.obj fields).truthy then
        match lookupField fields "ProcessorSummary" with
        | some (.obj ps) =>
          match lookupField ps "CPUUtilization" with
          | some v => nonNull v
          | none =>
            match lookupField fields "CPUUtilization" with
            | some v => nonNull v
            | none => none
        | _ =>
          match lookupField fields "CPUUtilization" with
          | some v => nonNull v
          | none => none
      else none
    | _ => none

/-- CPU probe 3 (lines 821-843): `GET
.../ProcessorSummary/ProcessorMetrics`, `TotalCorePercent` first, else
`CPUUtilizationPercent` (the `elif` is only reached when the first key
is absent). -/
def cpuProbe3 (d : Device) : Option Json :=
  match d.get REDFISH_PROCESSOR_SUMMARY_METRICS_PATH with
  | .raised => none
  | .resp r =>
    match safe_get_json (some r) with
    | some (.obj fields) =>
      if (Json.obj fields).truthy then
        match lookupField fields "TotalCorePercent" with
        | some v => nonNull v
        | none =>
          match lookupField fields "CPUUtilizationPercent" with
          | some v => nonNull v
          | none => none
      else none
    | _ => none

/-- CPU probe 4, per-member extraction (lines 858-886): each member's
detail page is fetched in its own inner `try`, so a transport error or
extraction exception there only skips that member.  The utilization
key chain is `CurrentUtilization`, `ProcessorUtilization`,
`UtilizationPercent`; the value is kept only when numeric
(`isinstance(util, (int, float))`). -/
def cpuProbe4Member (d : Device) (member : Json) : Except PyErr (Option Rat) :=
  match member with
  | .obj m =>
    match lookupField m "@odata.id" with
    | some (.str url) =>
      .ok <| match d.get url with
      | .raised => none
      | .resp r =>
        match safe_get_json (some r) with
        | some (.obj detail) =>
          if (Json.obj detail).truthy then
            match lookupField detail "Oem" with
            | some (.obj oem) =>
              match oemHpe oem with
              | .obj hpe =>
                match lookupField hpe "CurrentUtilization" with
                | some v => v.asPyNum
                | none =>
                  match lookupField hpe "ProcessorUtilization" with
                  | some v => v.asPyNum
                  | none =>
                    match lookupField hpe "UtilizationPercent" with
                    | some v => v.asPyNum
                    | none => none
              | _ => none
            | some _ => none
            | none => none
          else none
        | _ => none
    | some _ => .ok none
    | none => .ok none
  | _ => .error .typeError

/-- CPU probe 4 member loop: collect the numeric utilizations of all
members.  A non-dict member raises `TypeError` at the membership test,
which sits outside the inner `try` and therefore aborts the whole
probe. -/
def cpuProbe4Loop (d : Device) : List Json → Except PyErr (List Rat)
  | [] => .ok []
  | member :: rest =>
    match cpuProbe4Member d member with
    | .error e => .error e
    | .ok none => cpuProbe4Loop d rest
    | .ok (some q) =>
      match cpuProbe4Loop d rest with
      | .error e => .error e
      | .ok qs => .ok (q :: qs)

/-- `np.mean` over the collected readings, in exact arithmetic. -/
def npMean (qs : List Rat) : Rat := qs.sum / qs.length

/-- CPU probe 4 (lines 845-899): `GET /redfish/v1/Systems/1/Processors`
then each member's detail page; the average of the numeric per-member
readings, or `None` if no member yielded one.  The probe-level
`except` turns the member-loop `TypeError` into probe failure. -/
def cpuProbe4 (d : Device) : Option Json :=
  match d.get REDFISH_PROCESSOR_COLLECTION_PATH with
  | .raised => none
  | .resp r =>
    match safe_get_json (some r) with
    | some (.obj fields) =>
      if (Json.obj fields).truthy then
        match lookupField fields "Members" with
        | some (.arr members) =>
          match cpuProbe4Loop d members with
          | .error _ => none
          | .ok [] => none
          | .ok qs => some (.num (npMean qs))
        | _ => none
      else none
    | _ => none

/-- CPU probe 5 member loop (lines 918-926): keys
`ProcessorUtilization` then `Utilization`, numeric values only.
There is no inner `try` here, so a non-dict member aborts the probe. -/
def cpuProbe5Loop : List Json → Except PyErr (List Rat)
  | [] => .ok []
  | .obj m :: rest =>
    let util : Option Rat :=
      match lookupField m "ProcessorUtilization" with
      | some v => v.asPyNum
      | none =>
        match lookupField m "Utilization" with
        | some v => v.asPyNum
        | none => none
    match util with
    | none => cpuProbe5Loop rest
    | some q =>
      match cpuProbe5Loop rest with
      | .error e => .error e
      | .ok qs => .ok (q :: qs)
  | _ :: _ => .error .typeError

/-- CPU probe 5 (lines 901-940): `GET
/redfish/v1/Systems/1/Oem/Hpe/Processors`; when the body has a
non-empty `Members` list, `AverageProcessorUtilization` wins if the
key is present (null stops the probe), else the numeric member
readings are averaged. -/
def cpuProbe5 (d : Device) : Option Json :=
  match d.get REDFISH_HPE_PROCESSOR_COLLECTION_PATH with
  | .raised => none
  | .resp r =>
    match safe_get_json (some r) with
    | some (.obj fields) =>
      if (Json.obj fields).truthy then
        match lookupField fields "Members" with
        | some (.arr members) =>
          if members.length > 0 then
            match lookupField fields "AverageProcessorUtilization" with
            | some v => nonNull v
            | none =>
              match cpuProbe5Loop members with
              | .error _ => none
              | .ok [] => none
              | .ok qs => some (.num (npMean qs))
          else none
        | _ => none
      else none
    | _ => none

/-- `get_cpu_utilization` (lines 752-950): the five probes in fixed
order, each guarded by `if cpu_load is None`; `None` after all five. -/
def get_cpu_utilization (d : Device) : Option Json :=
  match cpuProbe1 d with
  | some v => some v
  | none =>
    match cpuProbe2 d with
    | some v => some v
    | none =>
      match cpuProbe3 d with
      | some v => some v
      | none =>
        match cpuProbe4 d with
        | some v => some v
        | none =>
          match cpuProbe5 d with
          | some v => some v
          | none => none

/-- The declared candidate probe list for the CPU-utilization metric. -/
def cpuProbes (d : Device) : List (Option Json) :=
  [cpuProbe1 d, cpuProbe2 d, cpuProbe3 d, cpuProbe4 d, cpuProbe5 d]

/-!
`RedfishSession` (source lines 536-637).  `__enter__` loops while
`retries <= max_retries`; each iteration creates a client (which can
raise the redfish connection error or a generic exception) and then
tries `login(auth="session")` followed by `login(auth="basic")`.  Any
login failure of both modes raises `AuthenticationError`, which is
re-raised without retrying; creation failures sleep `retry_delay` and
consume a retry, and once `retries >= max_retries` they raise
`ConnectionError`.
-/

/-- The negotiated auth mode of a successful login. -/
inductive AuthMode where
  | sessionToken
  | basic
  deriving DecidableEq, Repr

/-- What one loop iteration of `__enter__` encounters:
client creation raises (`connError` for
`redfish.rest.connections.ConnectionError`, `otherError` for the
generic `except Exception`), or the client is created and the two
login calls succeed or fail as given. -/
inductive AttemptOutcome where
  | connOk (sessionLogin : Bool) (basicLogin : Bool)
  | connError
  | otherError
  deriving DecidableEq, Repr

/-- Device-side session events: a successful `login` opens a session
on the target, `logout` closes one (a logout with no open session does
nothing, matching a logout call on a client that never logged in). -/
inductive SessEvent where
  | login
  | logout
  deriving DecidableEq, Repr

/-- How `__enter__` exits: returning a client (with its auth mode),
raising `ConnectionError`, or raising `AuthenticationError`. -/
inductive EnterResult where
  | ok (mode : AuthMode)
  | connFailed
  | authFailed
  deriving DecidableEq, Repr

/-- Observable trace of one `__enter__` call: how many loop iterations
ran, the delays slept between them, the device-side session events,
and how the call exited. -/
structure EnterOut where
  attempts : Nat
  sleeps : List Nat
  events : List SessEvent
  result : EnterResult
  deriving DecidableEq, Repr

/-- The `__enter__` retry loop (lines 549-628), by recursion on the
remaining fuel `maxRetries + 1 - idx`.  `behavior i` is what attempt
`i` encounters.  On `connOk s b`: `s = true` returns with session
auth; otherwise `b = true` returns with basic auth; otherwise both
logins failed, `client.logout()` is attempted and `AuthenticationError`
is raised (not retried).  On a creation failure: raise
`ConnectionError` when `idx >= maxRetries`, else sleep and retry. -/
def enterLoop (behavior : Nat → AttemptOutcome) (maxRetries retryDelay : Nat) :
    Nat → Nat → EnterOut
  | _, 0 => ⟨0, [], [], .connFailed⟩
  | idx, fuel + 1 =>
    match behavior idx with
    | .connOk true _ => ⟨1, [], [.login], .ok .sessionToken⟩
    | .connOk false true => ⟨1, [], [.login], .ok .basic⟩
    | .connOk false false => ⟨1, [], [.logout], .authFailed⟩
    | .connError =>
      if maxRetries ≤ idx then ⟨1, [], [], .connFailed⟩
      else
        let rest := enterLoop behavior maxRetries retryDelay (idx + 1) fuel
        ⟨rest.attempts + 1, retryDelay :: rest.sleeps, rest.events, rest.result⟩
    | .otherError =>
      if maxRetries ≤ idx then ⟨1, [], [], .connFailed⟩
      else
        let rest := enterLoop behavior maxRetries retryDelay (idx + 1) fuel
        ⟨rest.attempts + 1, retryDelay :: rest.sleeps, rest.events, rest.result⟩

/-- `RedfishSession.__enter__`: the loop started at `retries = 0`. -/
def sessionEnter (behavior : Nat → AttemptOutcome) (maxRetries retryDelay : Nat) : EnterOut :=
  enterLoop behavior maxRetries retryDelay 0 (maxRetries + 1)

/-- The full `with RedfishSession(...) as client:` scope.  Python
semantics: if `__enter__` raises, the body and `__exit__` are skipped;
otherwise `__exit__` (lines 630-637) runs on every body exit path,
normal or exceptional, and calls `client.logout()` since
`self.client` is set.  Returns the device-side event trace and whether
the scope re-raised an exception. -/
def withRedfishSession (behavior : Nat → AttemptOutcome) (maxRetries retryDelay : Nat)
    (bodyRaises : Bool) : List SessEvent × Bool :=
  let e := sessionEnter behavior maxRetries retryDelay
  match e.result with
  | .ok _ => (e.events ++ [.logout], bodyRaises)
  | .connFailed => (e.events, true)
  | .authFailed => (e.events, true)

/-- Number of login sessions still open on the device after a trace of
session events (logout on a closed device is a no-op). -/
def openSessions (start : Nat) : List SessEvent → Nat
  | [] => start
  | .login :: rest => openSessions (start + 1) rest
  | .logout :: rest => openSessions (start - 1) rest

/-!
`get_power_status` (source lines 952-974) and the power actions
(lines 1135-1212).
-/

/-- The value `get_power_status` returns: either the `PowerState`
field of the parsed body (`val`, defaulting to the string "Unknown"),
or one of the diagnostic strings built at lines 967-972:
"Unknown (Status n)", "Unknown (Empty Response)",
"Unknown (JSON Error)". -/
inductive ReadState where
  | val (j : Json)
  | errStatus (n : Nat)
  | errEmpty
  | errJson

/-- The Python string the `ReadState` denotes, when it is a string
(`val` of a non-string JSON value is not). -/
def ReadState.asPyStr : ReadState → Option String
  | .val (.str s) => some s
  | .val _ => none
  | .errStatus n => some ("Unknown (Status " ++ toString n ++ ")")
  | .errEmpty => some "Unknown (Empty Response)"
  | .errJson => some "Unknown (JSON Error)"

/-- Python `current_state == t` for a string literal `t`: equality is
`False` (never an exception) when the value is not a string. -/
def ReadState.eqStr (c : ReadState) (t : String) : Bool :=
  c.asPyStr = some t

/-- Python `current_state.startswith("Unknown")`: raises
`AttributeError` when the value is not a string. -/
def ReadState.startsUnknown : ReadState → Except PyErr Bool
  | .val (.str s) => .ok (s.startsWith "Unknown")
  | .val _ => .error .attributeError
  | .errStatus _ => .ok true
  | .errEmpty => .ok true
  | .errJson => .ok true

/-- `get_power_status` (lines 952-974).  If the GET itself raises, the
`except` swallows it but line 967 then reads the unbound locals
`data`/`resp`, raising `NameError`.  Otherwise: a parsed dict gives
its `PowerState` (default "Unknown"); a parsed non-dict makes `.get`
raise inside the `try` (swallowed), leaving "Unknown"; a `None` from
`_safe_get_json` maps to the diagnostic strings in the order of lines
967-972. -/
def get_power_status (d : Device) : Except PyErr ReadState :=
  match d.get REDFISH_SYSTEM_PATH with
  | .raised => .error .nameError
  | .resp r =>
    match safe_get_json (some r) with
    | some data =>
      .ok <| .val <|
        match data with
        | .obj fields =>
          if (Json.obj fields).truthy then
            match lookupField fields "PowerState" with
            | some v => v
            | none => .str "Unknown"
          else .str "Unknown"
        | _ => .str "Unknown"
    | none =>
      if r.status ≠ 200 then .ok (.errStatus r.status)
      else
        match r.body with
        | .empty => .ok .errEmpty
        | _ => .ok .errJson

/-- Observable outcome of `power_on_system` / `power_off_system`:
whether the "could not determine current power state" warning was
printed, the `ResetType` of each POST issued, and the boolean the
function returns. -/
structure ActionOut where
  warned : Bool
  posts : List String
  ret : Bool
  deriving DecidableEq, Repr

/-- One target as a fan-out worker sees it: the session opens against
device `d`, or `RedfishSession.__enter__` raises `ConnectionError` /
`AuthenticationError`. -/
inductive TargetWorld where
  | up (d : Device)
  | connDown
  | authRejected

/-- `power_on_system` (lines 1135-1171).  Current state "On" returns
`True` with no POST; a state starting with "Unknown" prints a warning
and proceeds; otherwise the `ResetType: On` POST is issued and success
is a 200/202/204 status (a raising POST is caught and returns
`False`). -/
def power_on_system : TargetWorld → Except PyErr ActionOut
  | .connDown => .error .connectionError
  | .authRejected => .error .authenticationError
  | .up d =>
    match get_power_status d with
    | .error e => .error e
    | .ok cur =>
      if cur.eqStr "On" then .ok ⟨false, [], true⟩
      else
        match cur.startsUnknown with
        | .error e => .error e
        | .ok w =>
          match d.post REDFISH_RESET_ACTION_PATH "On" with
          | .raised => .ok ⟨w, ["On"], false⟩
          | .status n => .ok ⟨w, ["On"], n = 200 ∨ n = 202 ∨ n = 204⟩

/-- `power_off_system` (lines 1173-1212).  Current state "Off" returns
`True` with no POST; a state starting with "Unknown" prints a warning
and proceeds; the `ResetType` is "ForceOff" when `force` else
"GracefulShutdown". -/
def power_off_system (w : TargetWorld) (force : Bool) : Except PyErr ActionOut :=
  match w with
  | .connDown => .error .connectionError
  | .authRejected => .error .authenticationError
  | .up d =>
    match get_power_status d with
    | .error e => .error e
    | .ok cur =>
      if cur.eqStr "Off" then .ok ⟨false, [], true⟩
      else
        match cur.startsUnknown with
        | .error e => .error e
        | .ok warn =>
          let resetType := if force then "ForceOff" else "GracefulShutdown"
          match d.post REDFISH_RESET_ACTION_PATH resetType with
          | .raised => .ok ⟨warn, [resetType], false⟩
          | .status n => .ok ⟨warn, [resetType], n = 200 ∨ n = 202 ∨ n = 204⟩

/-!
Fan-out workers and batch semantics.

Both batch entry points use
`results = list(executor.map(worker, ilo_systems))`.
`ThreadPoolExecutor.map` runs `worker` on every element; an exception
raised inside a worker is stored in its future and re-raised in the
caller when `list(...)` reaches that element, so the observable result
of the batch is either one value per target or the first worker
exception in input order.  `List.mapM` over `Except` has exactly this
semantics.
-/

/-- Per-target result row built by `monitor_power.get_system_metrics`
(lines 1476-1496). -/
structure MetricsRow where
  watts : Option Json
  cpu_load : Option Json

/-- `monitor_power.get_system_metrics` (lines 1476-1496): the worker
of the monitoring tick.  It has no `try`/`except` of its own, so when
`RedfishSession.__enter__` raises, the exception escapes the worker.
(The `if client:` guard is dead code: `__enter__` never returns
`None` — it returns a client or raises.) -/
def get_system_metrics : TargetWorld → Except PyErr MetricsRow
  | .up d => .ok ⟨get_power_watts d, get_cpu_utilization d⟩
  | .connDown => .error .connectionError
  | .authRejected => .error .authenticationError

/-- The body of `main.get_power` (lines 1867-1887) before its
`try`/`except`: the same session-then-read shape as the monitor
worker. -/
def get_power_body : TargetWorld → Except PyErr (Option Json)
  | .up d => .ok (get_power_watts d)
  | .connDown => .error .connectionError
  | .authRejected => .error .authenticationError

/-- `main.get_power` (lines 1867-1887): the `--power-watts` batch
worker.  Its `except (ConnectionError, AuthenticationError)` and
`except Exception` clauses convert every failure to the value `None`,
so this worker never raises. -/
def get_power_worker (w : TargetWorld) : Option Json :=
  match get_power_body w with
  | .ok v => v
  | .error _ => none

/-- `list(executor.map(worker, targets))`: one result per target, or
the first worker exception re-raised in the caller. -/
def runBatch {α β : Type} (worker : α → Except PyErr β) (targets : List α) :
    Except PyErr (List β) :=
  targets.mapM worker

/-!
Monitoring-tick aggregation (`monitor_power`, lines 1504-1513) and the
persistence sink row (`save_power_data_to_csv`, lines 380-391).
Readings are modelled at the numeric level reached after the
`np.array(..., dtype=np.float64)` conversion.
-/

/-- One target's tick readings after numeric conversion. -/
structure TickRow where
  watts : Option Rat
  cpu_load : Option Rat

/-- `[r['watts'] for r in results if r['watts'] is not None]`
(line 1504). -/
def watts_values (results : List TickRow) : List Rat :=
  results.filterMap TickRow.watts

/-- `[r['cpu_load'] for r in results if r['cpu_load'] is not None]`
(line 1505). -/
def cpu_values (results : List TickRow) : List Rat :=
  results.filterMap TickRow.cpu_load

/-- `total_watts = np.sum(watts_values) if valid_power_readings > 0
else 0` (line 1511). -/
def total_watts (results : List TickRow) : Rat :=
  if 0 < (watts_values results).length then (watts_values results).sum else 0

/-- `avg_watts = np.mean(watts_values) if valid_power_readings > 0
else 0` (line 1512). -/
def avg_watts (results : List TickRow) : Rat :=
  if 0 < (watts_values results).length then npMean (watts_values results) else 0

/-- `avg_cpu = np.mean(cpu_values) if valid_cpu_readings > 0 else
None` (line 1513). -/
def avg_cpu (results : List TickRow) : Option Rat :=
  if 0 < (cpu_values results).length then some (npMean (cpu_values results)) else none

/-- One cell of the power-history CSV row: a formatted number, or the
literal string "Unknown" written when the aggregate has no data. -/
inductive CsvCell where
  | num (q : Rat)
  | unknownStr
  deriving DecidableEq, Repr

/-- The row appended by `save_power_data_to_csv` (lines 380-391):
`total_power_watts` and `avg_power_watts` are always formatted
numbers; `avg_cpu_load` is "Unknown" exactly when the value is
`None`. -/
structure PowerCsvRow where
  total_power_watts : CsvCell
  avg_power_watts : CsvCell
  avg_cpu_load : CsvCell
  valid_readings : Nat
  total_servers : Nat
  deriving DecidableEq, Repr

/-- `save_power_data_to_csv` (lines 380-391), at the level of the
values written (decimal formatting is modelled as the number itself). -/
def save_power_data_to_csv (totalWatts avgWatts : Rat) (avgCpuLoad : Option Rat)
    (validReadings totalServers : Nat) : PowerCsvRow :=
  { total_power_watts := .num totalWatts
    avg_power_watts := .num avgWatts
    avg_cpu_load := match avgCpuLoad with
      | some q => .num q
      | none => .unknownStr
    valid_readings := validReadings
    total_servers := totalServers }

/-- One monitoring tick's aggregation and sink row (lines 1504-1529),
given the per-target results of the tick's batch. -/
def monitor_tick_row (results : List TickRow) : PowerCsvRow :=
  save_power_data_to_csv (total_watts results) (avg_watts results) (avg_cpu results)
    (watts_values results).length results.length

/-!
The `monitor_power` loop skeleton (lines 1461-1548).  The tick body —
fan-out, aggregation, CSV save — is abstracted as a function from the
iteration index to the sink row it produces, or to the exception the
tick raised (which the handler at lines 1543-1548 turns into loop
exit).  Only the bounded case (`iterations = k`) is embedded; with
`iterations=None` the loop has no exit besides an exception.
-/

/-- Observable loop events: one tick handing a row to the sink, or one
`time.sleep(interval_minutes * 60)`. -/
inductive LoopEvent where
  | tick (row : PowerCsvRow)
  | sleep (seconds : Nat)
  deriving DecidableEq, Repr

/-- The loop body, by recursion on the remaining iteration count
(`iterations - iteration`): run the tick; if it raised, the outer
`except` ends the loop; if the iteration limit is reached, `break`
before sleeping; otherwise sleep the full interval and continue. -/
def monitorLoop (tickResult : Nat → Except PyErr PowerCsvRow) (intervalMinutes : Nat)
    (idx : Nat) : Nat → List LoopEvent
  | 0 => []
  | remaining + 1 =>
    match tickResult idx with
    | .error _ => []
    | .ok row =>
      if remaining = 0 then [.tick row]
      else .tick row :: .sleep (intervalMinutes * 60) ::
        monitorLoop tickResult intervalMinutes (idx + 1) remaining

/-- `monitor_power` with `iterations = k` (lines 1466-1541). -/
def monitor_power (tickResult : Nat → Except PyErr PowerCsvRow)
    (intervalMinutes iterations : Nat) : List LoopEvent :=
  monitorLoop tickResult intervalMinutes 0 iterations

/-- The rows handed to the persistence sink during a run. -/
def sinkRows (events : List LoopEvent) : List PowerCsvRow :=
  events.filterMap fun e =>
    match e with
    | .tick row => some row
    | .sleep _ => none

/-- Number of sleeps in a run. -/
def sleepCount (events : List LoopEvent) : Nat :=
  (events.filter fun e =>
    match e with
    | .tick _ => false
    | .sleep _ => true).length

/-!
Tick timing (lines 1470, 1539-1541).  Each iteration reads the clock
into `current_time` when it starts, does its work, prints
`next_time = current_time + timedelta(minutes=interval_minutes)` as
the scheduled next check, and then calls
`time.sleep(interval_minutes * 60)` — a full interval measured from
the moment the work finished.
-/

/-- Actual start time (seconds) of tick `i`, given each tick's work
duration: the next tick starts a full sleep interval after the
previous tick's work completed. -/
def tickStart (work : Nat → Nat) (intervalMinutes startTime : Nat) : Nat → Nat
  | 0 => startTime
  | i + 1 => tickStart work intervalMinutes startTime i + work i + intervalMinutes * 60

/-- The next-check time the loop prints (line 1539-1540): one interval
after the tick started. -/
def printedNextCheck (thisTickStart intervalMinutes : Nat) : Nat :=
  thisTickStart + intervalMinutes * 60

/-!
Auxiliary definitions used in the statements and their concrete
instantiations.
-/

/-- `main.get_power` as the scheduler sees it: thanks to its
`try`/`except` clauses the worker is a total function — every failure
is already a value. -/
def get_power_worker_exc (w : TargetWorld) : Except PyErr (Option Json) :=
  .ok (get_power_worker w)

/-- Client-creation failures: the two `except` branches of
`__enter__` that consume a retry. -/
def creationFails (a : AttemptOutcome) : Prop :=
  a = .connError ∨ a = .otherError

/-- A target whose transport raises on every request. -/
def raiseDev : Device :=
  ⟨fun _ => .raised, fun _ _ => .raised⟩

/-- A reachable target currently powered on. -/
def devOn : Device :=
  ⟨fun _ => .resp ⟨200, .parsed (.obj [("PowerState", .str "On")])⟩,
   fun _ _ => .status 200⟩

/-- A reachable target currently powered off. -/
def devOff : Device :=
  ⟨fun _ => .resp ⟨200, .parsed (.obj [("PowerState", .str "Off")])⟩,
   fun _ _ => .status 200⟩

/-- A reachable target whose system endpoint answers 500, so its read
power state is "Unknown (Status 500)", while its reset action
endpoint accepts commands. -/
def devU : Device :=
  ⟨fun _ => .resp ⟨500, .empty⟩, fun _ _ => .status 200⟩

/-- A fixed sink row for loop instantiations. -/
def rowA : PowerCsvRow :=
  save_power_data_to_csv 0 0 none 0 0

end IloPower

namespace IloPower

/-- C10 counterexample: the response body "0" is valid, non-empty,
non-null JSON, yet `_safe_get_json` does not return the parsed value
`0` — Python truthiness replaces every falsy parsed value (not just
null and empty containers) with the empty dict. -/
theorem c10_counterexample :
    safe_get_json (some ⟨200, .parsed (.num 0)⟩) = some (.obj []) ∧
    Json.obj [] ≠ Json.num 0 := by
  exact ⟨rfl, fun h => Json.noConfusion h⟩

/-- C10 (amended): `_safe_get_json` is total — its exception-explicit
embedding always returns `.ok` — and follows the case table of lines
94-119: absent response, non-200 status, empty body, and unparseable
body give `None`; a parsed truthy value is returned as is; a parsed
falsy value (null, false, 0, "", [], {}) gives the empty dict. -/
theorem c10_safe_get_json_total :
    (∀ r, safe_get_json_exc r = .ok (safe_get_json r)) ∧
    safe_get_json none = none ∧
    (∀ st b, st ≠ 200 → safe_get_json (some ⟨st, b⟩) = none) ∧
    safe_get_json (some ⟨200, .empty⟩) = none ∧
    safe_get_json (some ⟨200, .invalid⟩) = none ∧
    (∀ j, j.truthy = true → safe_get_json (some ⟨200, .parsed j⟩) = some j) ∧
    (∀ j, j.truthy = false → safe_get_json (some ⟨200, .parsed j⟩) = some (.obj [])) := by
  refine ⟨?_, rfl, ?_, rfl, rfl, ?_, ?_⟩
  · intro r
    match r with
    | none => rfl
    | some ⟨st, b⟩ =>
      by_cases h : st = 200 <;>
        cases b <;> simp [safe_get_json, safe_get_json_exc, json_loads, h]
  · intro st b h
    simp [safe_get_json, h]
  · intro j hj
    simp [safe_get_json, hj]
  · intro j hj
    simp [safe_get_json, hj]

/-- C10 witness: the theorem applied at a 404 response and at a parsed
non-empty string body. -/
theorem c10_witness :
    safe_get_json (some ⟨404, .empty⟩) = none ∧
    safe_get_json (some ⟨200, .parsed (.str "x")⟩) = some (.str "x") :=
  ⟨c10_safe_get_json_total.2.2.1 404 .empty (by decide),
   c10_safe_get_json_total.2.2.2.2.2.1 (.str "x") rfl⟩

/-- C8: the loop sleeps the full interval measured from the end of the
tick's work, not from the tick's start.  With a 1-minute interval and
30 seconds of work, the next tick actually starts 90 seconds after the
previous tick started, while the loop's own printed schedule (and the
claim) put it at 60 seconds. -/
theorem c8_sleep_measured_from_work_end :
    tickStart (fun _ => 30) 1 0 1 = 90 ∧
    printedNextCheck (tickStart (fun _ => 30) 1 0 0) 1 = 60 ∧
    (90 : Nat) ≠ 60 := by
  refine ⟨rfl, rfl, by decide⟩

/-- C1: in a monitoring tick, `get_system_metrics` has no
`try`/`except`, so a single unreachable target makes the whole batch
return the exception instead of one result per target — here a fleet
of two targets yields `ConnectionError` rather than two rows.  The
`--power-watts` batch worker `get_power` does catch everything, so
that fan-out always yields one value per target. -/
theorem c1_monitor_tick_aborts_on_one_failure :
    runBatch get_system_metrics [.up raiseDev, .connDown] =
      .error .connectionError ∧
    (∀ worlds : List TargetWorld,
      runBatch get_power_worker_exc worlds = .ok (worlds.map get_power_worker)) := by
  constructor
  · rfl
  · intro ws
    induction ws with
    | nil => rfl
    | cons w rest ih =>
      simp only [runBatch] at ih ⊢
      rw [List.map_cons, List.mapM_cons, ih]
      rfl

/-- C6 counterexample: a tick in which no target produced a valid
power reading records the fleet power total and average as the number
zero, not as a "no data" marker (only the CPU aggregate gets the
"Unknown" marker). -/
theorem c6_counterexample :
    (monitor_tick_row [⟨none, none⟩]).total_power_watts = .num 0 ∧
    (monitor_tick_row [⟨none, none⟩]).avg_power_watts = .num 0 ∧
    CsvCell.num 0 ≠ CsvCell.unknownStr := by
  refine ⟨rfl, rfl, by decide⟩

/-- C6 (amended): the aggregates are computed over exactly the
successful (non-`None`) readings — the mean is the arithmetic mean of
the valid values, and appending a failed row changes nothing — and
with zero valid readings the CPU aggregate is recorded as "Unknown"
while the power total and average are recorded as the number zero. -/
theorem c6_aggregates_over_successes (results : List TickRow) :
    (0 < (watts_values results).length →
      (monitor_tick_row results).total_power_watts = .num (watts_values results).sum ∧
      (monitor_tick_row results).avg_power_watts =
        .num ((watts_values results).sum / (watts_values results).length)) ∧
    (0 < (cpu_values results).length →
      (monitor_tick_row results).avg_cpu_load =
        .num ((cpu_values results).sum / (cpu_values results).length)) ∧
    ((cpu_values results).length = 0 →
      (monitor_tick_row results).avg_cpu_load = .unknownStr) ∧
    ((watts_values results).length = 0 →
      (monitor_tick_row results).total_power_watts = .num 0 ∧
      (monitor_tick_row results).avg_power_watts = .num 0) ∧
    (monitor_tick_row results).valid_readings = (watts_values results).length ∧
    (∀ r : TickRow, r.watts = none →
      watts_values (results ++ [r]) = watts_values results) ∧
    (∀ r : TickRow, r.cpu_load = none →
      cpu_values (results ++ [r]) = cpu_values results) := by
  refine ⟨?_, ?_, ?_, ?_, rfl, ?_, ?_⟩
  · intro h
    constructor
    · simp [monitor_tick_row, save_power_data_to_csv, total_watts, h]
    · simp [monitor_tick_row, save_power_data_to_csv, avg_watts, npMean, h]
  · intro h
    simp [monitor_tick_row, save_power_data_to_csv, avg_cpu, npMean, h]
  · intro h
    simp [monitor_tick_row, save_power_data_to_csv, avg_cpu, h]
  · intro h
    constructor
    · simp [monitor_tick_row, save_power_data_to_csv, total_watts, h]
    · simp [monitor_tick_row, save_power_data_to_csv, avg_watts, h]
  · intro r hr
    simp [watts_values, List.filterMap_append, hr]
  · intro r hr
    simp [cpu_values, List.filterMap_append, hr]

/-- C6 witness: the amended theorem applied to one successful power
reading of 3 W and no CPU reading. -/
theorem c6_witness :
    (∃ q, (monitor_tick_row [⟨some 3, none⟩]).total_power_watts = .num q) ∧
    (monitor_tick_row [⟨some 3, none⟩]).avg_cpu_load = .unknownStr :=
  ⟨⟨_, ((c6_aggregates_over_successes [⟨some 3, none⟩]).1 (by decide)).1⟩,
   (c6_aggregates_over_successes [⟨some 3, none⟩]).2.2.1 rfl⟩

/-- C2: the power controller is idempotent — when the read state
already equals the desired state, both actions return success with no
POST issued, so two consecutive calls on a device actually in the
desired state issue zero (hence at most one) state-changing
requests. -/
theorem c2_power_controller_idempotent (dOn dOff : Device) (force : Bool)
    (hOn : get_power_status dOn = .ok (.val (.str "On")))
    (hOff : get_power_status dOff = .ok (.val (.str "Off"))) :
    power_on_system (.up dOn) = .ok ⟨false, [], true⟩ ∧
    power_off_system (.up dOff) force = .ok ⟨false, [], true⟩ := by
  constructor
  · simp only [power_on_system]
    rw [hOn]
    rfl
  · simp only [power_off_system]
    rw [hOff]
    rfl

/-- C2 witness: the theorem applied to concrete devices reporting
`PowerState` "On" and "Off". -/
theorem c2_witness :
    power_on_system (.up devOn) = .ok ⟨false, [], true⟩ ∧
    power_off_system (.up devOff) true = .ok ⟨false, [], true⟩ :=
  c2_power_controller_idempotent devOn devOff true rfl rfl

/-- C5 counterexample: a power-off on a target whose read state is
"Unknown (Status 500)" with `force = False` issues a
`GracefulShutdown` request, not `ForceOff`, and the outcome is the
bare boolean `True` with no warning flag in it (the warning is only
printed). -/
theorem c5_counterexample :
    get_power_status devU = .ok (.errStatus 500) ∧
    power_off_system (.up devU) false = .ok ⟨true, ["GracefulShutdown"], true⟩ ∧
    "GracefulShutdown" ≠ "ForceOff" := by
  refine ⟨rfl, rfl, by decide⟩

/-- C5 (amended): a power-off on a target whose read state starts with
"Unknown" prints a warning and still attempts the action with exactly
one reset request, whose action code is `ForceOff` when the force flag
is set and `GracefulShutdown` otherwise; the returned outcome is a
plain boolean without a warning field. -/
theorem c5_unknown_state_still_attempts (d : Device) (force : Bool) (cur : ReadState)
    (hread : get_power_status d = .ok cur)
    (hnotOff : cur.eqStr "Off" = false)
    (hunk : cur.startsUnknown = .ok true) :
    ∃ ret, power_off_system (.up d) force =
      .ok ⟨true, [if force then "ForceOff" else "GracefulShutdown"], ret⟩ := by
  simp only [power_off_system]
  rw [hread]
  simp only [hnotOff, Bool.false_eq_true, if_false, hunk]
  cases d.post REDFISH_RESET_ACTION_PATH (if force then "ForceOff" else "GracefulShutdown") with
  | raised => exact ⟨false, rfl⟩
  | status n => exact ⟨decide (n = 200 ∨ n = 202 ∨ n = 204), rfl⟩

/-- C5 witness: the amended theorem applied to the concrete device
whose read state is "Unknown (Status 500)", with force set. -/
theorem c5_witness :
    ∃ ret, power_off_system (.up devU) true = .ok ⟨true, ["ForceOff"], ret⟩ :=
  c5_unknown_state_still_attempts devU true (.errStatus 500) rfl rfl rfl

/-- C3: for each metric the discovery result is the first
structurally valid candidate probe value in declared order, the
not-found result occurs exactly when every candidate probe failed, and
a transport-level error on a probe's endpoint only fails that
probe. -/
theorem c3_discovery_first_valid (d : Device) :
    get_power_watts d = firstValid (powerProbes d) ∧
    get_cpu_utilization d = firstValid (cpuProbes d) ∧
    (get_power_watts d = none ↔ ∀ p ∈ powerProbes d, p = none) ∧
    (get_cpu_utilization d = none ↔ ∀ p ∈ cpuProbes d, p = none) ∧
    (d.get REDFISH_POWER_PATH = .raised → powerProbe1 d = none) ∧
    (d.get REDFISH_POWER_SUBSYSTEM_METRICS_PATH = .raised → powerProbe2 d = none) ∧
    (d.get REDFISH_SYSTEM_PATH = .raised → powerProbe3 d = none ∧ cpuProbe1 d = none) ∧
    (d.get REDFISH_SYSTEM_METRICS_PATH = .raised → cpuProbe2 d = none) ∧
    (d.get REDFISH_PROCESSOR_SUMMARY_METRICS_PATH = .raised → cpuProbe3 d = none) ∧
    (d.get REDFISH_PROCESSOR_COLLECTION_PATH = .raised → cpuProbe4 d = none) ∧
    (d.get REDFISH_HPE_PROCESSOR_COLLECTION_PATH = .raised → cpuProbe5 d = none) := by
  refine ⟨?_, ?_, ?_, ?_, ?_, ?_, ?_, ?_, ?_, ?_, ?_⟩
  · cases h1 : powerProbe1 d <;> cases h2 : powerProbe2 d <;> cases h3 : powerProbe3 d <;>
      simp [get_power_watts, powerProbes, firstValid, h1, h2, h3]
  · cases h1 : cpuProbe1 d <;> cases h2 : cpuProbe2 d <;> cases h3 : cpuProbe3 d <;>
      cases h4 : cpuProbe4 d <;> cases h5 : cpuProbe5 d <;>
      simp [get_cpu_utilization, cpuProbes, firstValid, h1, h2, h3, h4, h5]
  · cases h1 : powerProbe1 d <;> cases h2 : powerProbe2 d <;> cases h3 : powerProbe3 d <;>
      simp [get_power_watts, powerProbes, h1, h2, h3]
  · cases h1 : cpuProbe1 d <;> cases h2 : cpuProbe2 d <;> cases h3 : cpuProbe3 d <;>
      cases h4 : cpuProbe4 d <;> cases h5 : cpuProbe5 d <;>
      simp [get_cpu_utilization, cpuProbes, h1, h2, h3, h4, h5]
  · intro h; simp [powerProbe1, h]
  · intro h; simp [powerProbe2, h]
  · intro h; exact ⟨by simp [powerProbe3, h], by simp [cpuProbe1, h]⟩
  · intro h; simp [cpuProbe2, h]
  · intro h; simp [cpuProbe3, h]
  · intro h; simp [cpuProbe4, h]
  · intro h; simp [cpuProbe5, h]

/-- C3 witness: the theorem applied to a device whose transport raises
on every request — every probe fails locally and discovery exhausts
the candidate list. -/
theorem c3_witness :
    powerProbe1 raiseDev = none ∧
    get_power_watts raiseDev = firstValid (powerProbes raiseDev) ∧
    (get_cpu_utilization raiseDev = none ↔ ∀ p ∈ cpuProbes raiseDev, p = none) :=
  ⟨(c3_discovery_first_valid raiseDev).2.2.2.2.1 rfl,
   (c3_discovery_first_valid raiseDev).1,
   (c3_discovery_first_valid raiseDev).2.2.2.1⟩

/-- Auxiliary: the retry loop makes at most `fuel` attempts. -/
theorem enterLoop_attempts_le (beh : Nat → AttemptOutcome) (mr rd : Nat) :
    ∀ fuel idx, (enterLoop beh mr rd idx fuel).attempts ≤ fuel := by
  intro fuel
  induction fuel with
  | zero => intro idx; simp [enterLoop]
  | succ n ih =>
    intro idx
    unfold enterLoop
    cases beh idx with
    | connOk s b => cases s <;> cases b <;> simp
    | connError =>
      by_cases hle : mr ≤ idx
      · simp [hle]
      · simp only [hle, if_false]
        exact Nat.succ_le_succ (ih (idx + 1))
    | otherError =>
      by_cases hle : mr ≤ idx
      · simp [hle]
      · simp only [hle, if_false]
        exact Nat.succ_le_succ (ih (idx + 1))

/-- Auxiliary: the retry loop makes at least one attempt when it has
fuel. -/
theorem enterLoop_attempts_pos (beh : Nat → AttemptOutcome) (mr rd : Nat)
    (fuel idx : Nat) (h : 0 < fuel) :
    0 < (enterLoop beh mr rd idx fuel).attempts := by
  cases fuel with
  | zero => omega
  | succ n =>
    unfold enterLoop
    cases beh idx with
    | connOk s b => cases s <;> cases b <;> simp
    | connError => by_cases hle : mr ≤ idx <;> simp [hle]
    | otherError => by_cases hle : mr ≤ idx <;> simp [hle]

/-- Auxiliary: every sleep of the retry loop has the fixed duration
`retry_delay`, and there is exactly one sleep between consecutive
attempts. -/
theorem enterLoop_sleeps (beh : Nat → AttemptOutcome) (mr rd : Nat) :
    ∀ fuel idx, idx + fuel = mr + 1 →
    (enterLoop beh mr rd idx fuel).sleeps =
      List.replicate ((enterLoop beh mr rd idx fuel).attempts - 1) rd := by
  intro fuel
  induction fuel with
  | zero => intro idx h; simp [enterLoop]
  | succ n ih =>
    intro idx h
    unfold enterLoop
    cases beh idx with
    | connOk s b => cases s <;> cases b <;> simp
    | connError =>
      by_cases hle : mr ≤ idx
      · simp [hle]
      · have hn : 0 < n := by omega
        have hpos := enterLoop_attempts_pos beh mr rd n (idx + 1) hn
        have ihh := ih (idx + 1) (by omega)
        simp only [hle, if_false, ihh, Nat.add_sub_cancel]
        have ha : (enterLoop beh mr rd (idx + 1) n).attempts =
            ((enterLoop beh mr rd (idx + 1) n).attempts - 1) + 1 := by omega
        rw [ha, List.replicate_succ]
        simp
    | otherError =>
      by_cases hle : mr ≤ idx
      · simp [hle]
      · have hn : 0 < n := by omega
        have hpos := enterLoop_attempts_pos beh mr rd n (idx + 1) hn
        have ihh := ih (idx + 1) (by omega)
        simp only [hle, if_false, ihh, Nat.add_sub_cancel]
        have ha : (enterLoop beh mr rd (idx + 1) n).attempts =
            ((enterLoop beh mr rd (idx + 1) n).attempts - 1) + 1 := by omega
        rw [ha, List.replicate_succ]
        simp

/-- Auxiliary: the device-side events of one `__enter__` call are
determined by how it exits — a successful login when it returns a
client, a bare logout attempt when both auth modes were rejected, and
nothing when it raises `ConnectionError`. -/
theorem enterLoop_events (beh : Nat → AttemptOutcome) (mr rd : Nat) :
    ∀ fuel idx,
    ((∃ m, (enterLoop beh mr rd idx fuel).result = .ok m) →
        (enterLoop beh mr rd idx fuel).events = [.login]) ∧
    ((enterLoop beh mr rd idx fuel).result = .connFailed →
        (enterLoop beh mr rd idx fuel).events = []) ∧
    ((enterLoop beh mr rd idx fuel).result = .authFailed →
        (enterLoop beh mr rd idx fuel).events = [.logout]) := by
  intro fuel
  induction fuel with
  | zero => intro idx; simp [enterLoop]
  | succ n ih =>
    intro idx
    unfold enterLoop
    cases beh idx with
    | connOk s b => cases s <;> cases b <;> simp
    | connError =>
      by_cases hle : mr ≤ idx
      · simp [hle]
      · simpa [hle] using ih (idx + 1)
    | otherError =>
      by_cases hle : mr ≤ idx
      · simp [hle]
      · simpa [hle] using ih (idx + 1)

/-- Auxiliary closed form of the retry loop when attempt `i` is the
first one whose client creation succeeds: the loop reaches attempt
`i`, having slept once per preceding creation failure, and the login
attempt at `i` decides the outcome — session auth wins if it
succeeds (basic is not tried), else basic, else the call aborts with
`AuthenticationError` immediately, consuming no retry. -/
theorem enterLoop_char (beh : Nat → AttemptOutcome) (mr rd : Nat) :
    ∀ fuel idx i, idx + fuel = mr + 1 → idx ≤ i → i ≤ mr →
    (∀ j, idx ≤ j → j < i → creationFails (beh j)) →
    ((∀ b, beh i = .connOk true b →
        enterLoop beh mr rd idx fuel =
          ⟨i - idx + 1, List.replicate (i - idx) rd, [.login], .ok .sessionToken⟩) ∧
     (beh i = .connOk false true →
        enterLoop beh mr rd idx fuel =
          ⟨i - idx + 1, List.replicate (i - idx) rd, [.login], .ok .basic⟩) ∧
     (beh i = .connOk false false →
        enterLoop beh mr rd idx fuel =
          ⟨i - idx + 1, List.replicate (i - idx) rd, [.logout], .authFailed⟩)) := by
  intro fuel
  induction fuel with
  | zero =>
    intro idx i h hxi him hprev
    omega
  | succ n ih =>
    intro idx i h hxi him hprev
    by_cases hii : idx = i
    · subst hii
      refine ⟨?_, ?_, ?_⟩
      · intro b hb
        unfold enterLoop
        simp [hb]
      · intro hb
        unfold enterLoop
        simp [hb]
      · intro hb
        unfold enterLoop
        simp [hb]
    · have hlt : idx < i := by omega
      have hcf : creationFails (beh idx) := hprev idx (le_refl _) hlt
      have hmr : ¬ mr ≤ idx := by omega
      have ihh := ih (idx + 1) i (by omega) (by omega) him
        (fun j hj1 hj2 => hprev j (by omega) hj2)
      have harith : i - idx = (i - (idx + 1)) + 1 := by omega
      refine ⟨?_, ?_, ?_⟩
      · intro b hb
        unfold enterLoop
        rcases hcf with hc | hc <;>
          simp [hc, hmr, ihh.1 b hb, harith, List.replicate_succ]
      · intro hb
        unfold enterLoop
        rcases hcf with hc | hc <;>
          simp [hc, hmr, ihh.2.1 hb, harith, List.replicate_succ]
      · intro hb
        unfold enterLoop
        rcases hcf with hc | hc <;>
          simp [hc, hmr, ihh.2.2 hb, harith, List.replicate_succ]

/-- Auxiliary closed form of the retry loop when every attempt up to
`maxRetries` fails at client creation: all `fuel` attempts are used
and the call raises `ConnectionError`. -/
theorem enterLoop_exhaust (beh : Nat → AttemptOutcome) (mr rd : Nat) :
    ∀ fuel idx, idx + fuel = mr + 1 →
    (∀ j, idx ≤ j → j ≤ mr → creationFails (beh j)) →
    enterLoop beh mr rd idx fuel =
      ⟨fuel, List.replicate (fuel - 1) rd, [], .connFailed⟩ := by
  intro fuel
  induction fuel with
  | zero => intro idx h hall; simp [enterLoop]
  | succ n ih =>
    intro idx h hall
    have hcf : creationFails (beh idx) := hall idx (le_refl _) (by omega)
    unfold enterLoop
    by_cases hmr : mr ≤ idx
    · have hn : n = 0 := by omega
      subst hn
      rcases hcf with hc | hc <;> simp [hc, hmr]
    · have hn : 0 < n := by omega
      have ihh := ih (idx + 1) (by omega) (fun j hj1 hj2 => hall j (by omega) hj2)
      have harith : n = (n - 1) + 1 := by omega
      rcases hcf with hc | hc <;>
        · simp [hc, hmr, ihh]
          rw [harith, List.replicate_succ]
          simp

/-- C4: `__enter__` makes at most `maxRetries + 1` attempts with the
fixed delay `retry_delay` slept exactly once between consecutive
attempts; on the first attempt whose client creation succeeds, session
auth is tried before basic; both logins failing aborts immediately
with `AuthenticationError` after that very attempt (no retry is
consumed); and when every attempt fails at creation, the call exhausts
all `maxRetries + 1` attempts and raises `ConnectionError`. -/
theorem c4_session_retry_policy (beh : Nat → AttemptOutcome) (mr rd i : Nat)
    (him : i ≤ mr) (hprev : ∀ j, j < i → creationFails (beh j)) :
    (sessionEnter beh mr rd).attempts ≤ mr + 1 ∧
    (sessionEnter beh mr rd).sleeps =
      List.replicate ((sessionEnter beh mr rd).attempts - 1) rd ∧
    (∀ b, beh i = .connOk true b →
      sessionEnter beh mr rd =
        ⟨i + 1, List.replicate i rd, [.login], .ok .sessionToken⟩) ∧
    (beh i = .connOk false true →
      sessionEnter beh mr rd =
        ⟨i + 1, List.replicate i rd, [.login], .ok .basic⟩) ∧
    (beh i = .connOk false false →
      sessionEnter beh mr rd =
        ⟨i + 1, List.replicate i rd, [.logout], .authFailed⟩) ∧
    ((∀ j, j ≤ mr → creationFails (beh j)) →
      sessionEnter beh mr rd =
        ⟨mr + 1, List.replicate mr rd, [], .connFailed⟩) := by
  have hchar := enterLoop_char beh mr rd (mr + 1) 0 i (by omega) (by omega) him
    (fun j hj1 hj2 => hprev j hj2)
  have h0 : i - 0 = i := by omega
  refine ⟨enterLoop_attempts_le beh mr rd (mr + 1) 0,
    enterLoop_sleeps beh mr rd (mr + 1) 0 (by omega), ?_, ?_, ?_, ?_⟩
  · intro b hb
    have := hchar.1 b hb
    simpa [sessionEnter, h0] using this
  · intro hb
    have := hchar.2.1 hb
    simpa [sessionEnter, h0] using this
  · intro hb
    have := hchar.2.2 hb
    simpa [sessionEnter, h0] using this
  · intro hall
    have := enterLoop_exhaust beh mr rd (mr + 1) 0 (by omega)
      (fun j hj1 hj2 => hall j hj2)
    simpa [sessionEnter, Nat.add_sub_cancel] using this

/-- C4 witness: the theorem applied to a behavior whose first attempt
fails at creation and whose second attempt logs in with session auth,
with `maxRetries = 2` and `retry_delay = 5`. -/
theorem c4_witness :
    sessionEnter (fun j => if j = 0 then .connError else .connOk true true) 2 5 =
      ⟨2, [5], [.login], .ok .sessionToken⟩ := by
  have h := (c4_session_retry_policy
    (fun j => if j = 0 then .connError else .connOk true true) 2 5 1
    (by omega)
    (fun j hj => by
      have hj0 : j = 0 := by omega
      subst hj0
      exact Or.inl rfl)).2.2.1 true rfl
  simpa using h

/-- C9: session acquisition is scoped — for every behavior of the
target, every retry budget and every body outcome (normal return or
exception), the number of login sessions still open on the device
after the `with RedfishSession(...)` scope exits is zero: a returned
client is always logged out by `__exit__`, a login failure logs out
before `AuthenticationError` propagates, and a connection failure
never logged in. -/
theorem c9_no_session_leak (beh : Nat → AttemptOutcome) (mr rd : Nat)
    (bodyRaises : Bool) :
    openSessions 0 (withRedfishSession beh mr rd bodyRaises).1 = 0 := by
  have hev := enterLoop_events beh mr rd (mr + 1) 0
  simp only [withRedfishSession, sessionEnter] at hev ⊢
  cases hres : (enterLoop beh mr rd 0 (mr + 1)).result with
  | ok m =>
    rw [hev.1 ⟨m, hres⟩]
    rfl
  | connFailed =>
    rw [hev.2.1 hres]
    rfl
  | authFailed =>
    rw [hev.2.2 hres]
    rfl

/-- Auxiliary: when every tick up to the iteration bound succeeds, the
bounded monitoring loop hands exactly one row per tick to the sink,
sleeps exactly once between consecutive ticks, and its trace ends with
a tick (no trailing sleep). -/
theorem monitorLoop_all_ok (tick : Nat → Except PyErr PowerCsvRow) (interval : Nat) :
    ∀ k idx, 1 ≤ k → (∀ i, i < idx + k → ∃ row, tick i = .ok row) →
    (sinkRows (monitorLoop tick interval idx k)).length = k ∧
    sleepCount (monitorLoop tick interval idx k) = k - 1 ∧
    (∃ row, (monitorLoop tick interval idx k).getLast? = some (.tick row)) := by
  intro k
  induction k with
  | zero => intro idx hk; omega
  | succ n ih =>
    intro idx hk hok
    obtain ⟨row, hrow⟩ := hok idx (by omega)
    unfold monitorLoop
    rw [hrow]
    by_cases hn : n = 0
    · subst hn
      simp [sinkRows, sleepCount]
    · have ihh := ih (idx + 1) (by omega) (fun i hi => hok i (by omega))
      obtain ⟨h1, h2, row2, h3⟩ := ihh
      simp only [hn, if_false]
      refine ⟨?_, ?_, ?_⟩
      · simp [sinkRows] at h1 ⊢
        omega
      · simp [sleepCount] at h2 ⊢
        omega
      · cases hrest : monitorLoop tick interval (idx + 1) n with
        | nil => rw [hrest] at h3; simp at h3
        | cons c cs =>
          rw [hrest] at h3
          refine ⟨row2, ?_⟩
          rw [List.getLast?_cons_cons, List.getLast?_cons_cons]
          exact h3

/-- C7: a monitoring loop configured for `k ≥ 1` iterations whose
ticks all complete performs exactly `k` ticks — handing exactly `k`
rows to the persistence sink — sleeps only `k - 1` times, and its last
event is the `k`-th tick, i.e. it returns without sleeping another
interval after it. -/
theorem c7_bounded_iterations (tick : Nat → Except PyErr PowerCsvRow)
    (interval k : Nat) (hk : 1 ≤ k)
    (hok : ∀ i, i < k → ∃ row, tick i = .ok row) :
    (sinkRows (monitor_power tick interval k)).length = k ∧
    sleepCount (monitor_power tick interval k) = k - 1 ∧
    (∃ row, (monitor_power tick interval k).getLast? = some (.tick row)) := by
  have h := monitorLoop_all_ok tick interval k 0 hk (fun i hi => hok i (by omega))
  simpa [monitor_power] using h

/-- C7 witness: two iterations at a 1-minute interval with always-
successful ticks produce exactly two sink rows, one sleep, and end on
a tick. -/
theorem c7_witness :
    (sinkRows (monitor_power (fun _ => .ok rowA) 1 2)).length = 2 ∧
    sleepCount (monitor_power (fun _ => .ok rowA) 1 2) = 1 ∧
    (∃ row, (monitor_power (fun _ => .ok rowA) 1 2).getLast? = some (.tick row)) :=
  c7_bounded_iterations (fun _ => .ok rowA) 1 2 (by omega) (fun i hi => ⟨rowA, rfl⟩)

end IloPower
